import Mathlib

/-!
Shallow embedding of the `dlss_wgpu` crate (DLSS integration for wgpu).

Conventions of the embedding:
* `u32` values are modelled as `Nat`; the Rust saturating float-to-int cast
  `as u32` is modelled by `u32_saturate`.
* `f32` arithmetic is modelled as exact arithmetic over `ℚ`; floating-point
  rounding is abstracted away.  Division of a positive value by `0.0`
  (an `f32` infinity) followed by `as u32` saturates to `u32::MAX`, and the
  embedding makes that branch explicit.
* FFI calls into the NGX runtime, Vulkan and wgpu are modelled by explicit
  parameters describing their outcomes (query results, success flags) or by
  records capturing the data the code hands to them.
* A Rust panic (`%` by zero, a failed `expect`) is modelled by `Option`
  (`none` = panic) or by truncating the event trace at the panic point.
-/

namespace DlssWgpu

/-- Two-component vector of `u32`, modelling `glam::UVec2`. -/
structure UVec2 where
  x : Nat
  y : Nat
deriving DecidableEq, Repr

/-- Two-component vector of `f32` (modelled over `ℚ`), modelling `glam::Vec2`. -/
structure Vec2 where
  x : ℚ
  y : ℚ
deriving DecidableEq, Repr

/-- Largest `u32` value. -/
def u32_max : Nat := 4294967295

/-- Rust `as u32` applied to a nonnegative finite `f32` value: truncation toward
zero, saturating at `u32::MAX`.  Modelled exactly over `ℚ`. -/
def u32_saturate (q : ℚ) : Nat := min u32_max (Int.toNat ⌊q⌋)

/-- Modelled from the spec: `halton_sequence` lives in `src/nvsdk_ngx.rs`, which
is not part of the provided sources.  The spec describes it as the standard
radix-based Halton construction, a pure function of `(index, base)`.
`halton_frac` computes the value as an exact fraction
`(numerator, denominator)` over `Nat`: each step contributes the next radix
digit `i % base` scaled by one more power of the base.  It is fuel-carrying;
fuel `i` suffices since the index is divided by `base ≥ 2` at every step. -/
def halton_frac : Nat → Nat → Nat → Nat × Nat
  | 0, _, _ => (0, 1)
  | fuel + 1, i, base =>
    if i = 0 then (0, 1)
    else
      let p := halton_frac fuel (i / base) base
      (i % base * p.2 + p.1, base * p.2)

/-- Modelled from the spec: the standard Halton sequence value for a given
index and base (`Halton(index, base)` in the spec's jitter formula). -/
def halton_sequence (i base : Nat) : ℚ :=
  ((halton_frac i i base).1 : ℚ) / ((halton_frac i i base).2 : ℚ)

/-- The `DlssSuperResolution` context (`src/super_resolution.rs`).  The opaque
fields (`device`, `sdk`, `feature`) are FFI handles and are omitted from the
embedding; the resolution fields are kept exactly as stored by `new`. -/
structure DlssSuperResolution where
  upscaled_resolution : UVec2
  min_render_resolution : UVec2
  max_render_resolution : UVec2
deriving DecidableEq, Repr

/-- The `DlssRayReconstruction` context (`src/ray_reconstruction.rs`); it
stores only the optimal render resolution, unlike the super-resolution
context.  Opaque FFI handles omitted as above. -/
structure DlssRayReconstruction where
  upscaled_resolution : UVec2
  render_resolution : UVec2
deriving DecidableEq, Repr

/-- The phase count computed inside `DlssSuperResolution::suggested_jitter`:
`let ratio = upscaled.x as f32 / render.x as f32;
 let phase_count = (8.0 * ratio * ratio) as u32;` — no lower bound.
A zero render width makes the `f32` quotient `+inf`, which `as u32`
saturates to `u32::MAX`. -/
def DlssSuperResolution.phase_count (self : DlssSuperResolution)
    (render_resolution : UVec2) : Nat :=
  if render_resolution.x = 0 then u32_max
  else
    let r : ℚ := (self.upscaled_resolution.x : ℚ) / (render_resolution.x : ℚ)
    u32_saturate (8 * r * r)

/-- `DlssSuperResolution::suggested_jitter` (`src/super_resolution.rs`,
lines 199-208).  `frame_number % phase_count` panics in Rust when the phase
count is zero; the panic is modelled by `none`. -/
def DlssSuperResolution.suggested_jitter (self : DlssSuperResolution)
    (frame_number : Nat) (render_resolution : UVec2) : Option Vec2 :=
  let phase_count := self.phase_count render_resolution
  if phase_count = 0 then none
  else
    let i := frame_number % phase_count
    some ⟨halton_sequence i 2 - 1/2, halton_sequence i 3 - 1/2⟩

/-- The phase count computed inside `DlssRayReconstruction::suggested_jitter`:
`let phase_count = ((8.0 * ratio * ratio) as u32).max(32);` — clamped to a
minimum of 32. -/
def DlssRayReconstruction.phase_count (self : DlssRayReconstruction)
    (render_resolution : UVec2) : Nat :=
  let cast_value : Nat :=
    if render_resolution.x = 0 then u32_max
    else
      let r : ℚ := (self.upscaled_resolution.x : ℚ) / (render_resolution.x : ℚ)
      u32_saturate (8 * r * r)
  max cast_value 32

/-- `DlssRayReconstruction::suggested_jitter` (`src/ray_reconstruction.rs`,
lines 297-307).  The clamped phase count is never zero, so the remainder is
always defined and the function is total. -/
def DlssRayReconstruction.suggested_jitter (self : DlssRayReconstruction)
    (frame_number : Nat) (render_resolution : UVec2) : Vec2 :=
  let phase_count := self.phase_count render_resolution
  let i := frame_number % phase_count
  ⟨halton_sequence i 2 - 1/2, halton_sequence i 3 - 1/2⟩

example : halton_sequence 1 2 = 1/2 := by
  rw [halton_sequence, show halton_frac 1 1 2 = (1, 2) from by decide]; norm_num
example : halton_sequence 8 2 = 1/16 := by
  rw [halton_sequence, show halton_frac 8 8 2 = (1, 16) from by decide]; norm_num
example : halton_sequence 8 3 = 8/9 := by
  rw [halton_sequence, show halton_frac 8 8 3 = (8, 9) from by decide]; norm_num
example :
    (DlssSuperResolution.mk ⟨100, 100⟩ ⟨100, 100⟩ ⟨100, 100⟩).phase_count ⟨100, 100⟩ = 8 := by
  simp [DlssSuperResolution.phase_count, u32_saturate, u32_max]
example :
    (DlssRayReconstruction.mk ⟨100, 100⟩ ⟨100, 100⟩).phase_count ⟨100, 100⟩ = 32 := by
  simp [DlssRayReconstruction.phase_count, u32_saturate, u32_max]

/-- A wgpu texture format, reduced to what the repository reads from it:
whether it has a color aspect (`TextureFormat::has_color_aspect`) and its raw
Vulkan encoding (`Adapter::texture_format_as_raw`). -/
structure TextureFormat where
  has_color_aspect : Bool
  raw : Nat
deriving DecidableEq, Repr

/-- A wgpu `Texture`, reduced to the data the repository reads: the raw Vulkan
image handle, format, dimensions and the usage bitflags. -/
structure Texture where
  raw_handle : Nat
  format : TextureFormat
  width : Nat
  height : Nat
  usage : Nat
deriving DecidableEq, Repr

/-- A wgpu `TextureView`: the raw Vulkan image-view handle and the owning
texture. -/
structure TextureView where
  raw_handle : Nat
  texture : Texture
deriving DecidableEq, Repr

/-- wgpu `TextureUsages` bitflag values used by the repository. -/
def TextureUsages.STORAGE_BINDING : Nat := 8

/-- Bitflag containment test (`TextureUsages::contains`). -/
def TextureUsages.contains (usage flag : Nat) : Bool := usage &&& flag = flag

/-- Resource states from `wgpu::TextureUses` that the repository transitions
textures into. -/
inductive TextureUses where
  | RESOURCE
  | STORAGE_READ_WRITE
deriving DecidableEq, Repr

/-- A `wgpu::TextureTransition` as recorded by `barrier_list`: in the source
the `selector` field is always `None`, so only the texture and target state
are modelled. -/
structure TextureTransition where
  texture : Texture
  state : TextureUses
deriving DecidableEq, Repr

/-- Vulkan `ImageAspectFlags::COLOR`. -/
def ImageAspectFlags.COLOR : Nat := 1

/-- Vulkan `ImageAspectFlags::DEPTH`. -/
def ImageAspectFlags.DEPTH : Nat := 2

/-- Vulkan sentinel `REMAINING_MIP_LEVELS`. -/
def REMAINING_MIP_LEVELS : Nat := 4294967295

/-- Vulkan sentinel `REMAINING_ARRAY_LAYERS`. -/
def REMAINING_ARRAY_LAYERS : Nat := 4294967295

/-- Vulkan `ImageSubresourceRange`. -/
structure ImageSubresourceRange where
  aspect_mask : Nat
  base_mip_level : Nat
  level_count : Nat
  base_array_layer : Nat
  layer_count : Nat
deriving DecidableEq, Repr

/-- The native NGX resource descriptor produced for a texture view
(`NVSDK_NGX_Resource_VK` restricted to the image-view case). -/
structure NVSDK_NGX_Resource_VK where
  image_view : Nat
  image : Nat
  subresource_range : ImageSubresourceRange
  format : Nat
  width : Nat
  height : Nat
  readWrite : Bool
deriving DecidableEq, Repr

/-- Models the DLSS SDK helper `NVSDK_NGX_Create_ImageView_Resource_VK`
(declared outside the repository): it packs its arguments into an
`NVSDK_NGX_Resource_VK` record for an image view. -/
def NVSDK_NGX_Create_ImageView_Resource_VK (image_view image : Nat)
    (subresource_range : ImageSubresourceRange) (format width height : Nat)
    (readWrite : Bool) : NVSDK_NGX_Resource_VK :=
  ⟨image_view, image, subresource_range, format, width, height, readWrite⟩

/-- `texture_to_ngx_resource` (`src/render_parameters.rs`, lines 85-114).
The adapter argument only supplies `texture_format_as_raw`, modelled by the
format's `raw` field. -/
def texture_to_ngx_resource (texture_view : TextureView) : NVSDK_NGX_Resource_VK :=
  let texture := texture_view.texture
  NVSDK_NGX_Create_ImageView_Resource_VK
    texture_view.raw_handle
    texture.raw_handle
    { aspect_mask :=
        if texture.format.has_color_aspect then ImageAspectFlags.COLOR
        else ImageAspectFlags.DEPTH
      base_mip_level := 0
      level_count := REMAINING_MIP_LEVELS
      base_array_layer := 0
      layer_count := REMAINING_ARRAY_LAYERS }
    texture.format.raw
    texture.width
    texture.height
    (TextureUsages.contains texture.usage TextureUsages.STORAGE_BINDING)

/-- `DlssSuperResolutionExposure` (`src/super_resolution.rs`). -/
inductive DlssSuperResolutionExposure where
  | Manual (exposure : TextureView) (exposure_scale : Option ℚ) (pre_exposure : Option ℚ)
  | Automatic
deriving DecidableEq, Repr

/-- `DlssSuperResolutionRenderParameters` (`src/super_resolution.rs`). -/
structure DlssSuperResolutionRenderParameters where
  color : TextureView
  depth : TextureView
  motion_vectors : TextureView
  exposure : DlssSuperResolutionExposure
  bias : Option TextureView
  dlss_output : TextureView
  reset : Bool
  jitter_offset : Vec2
  partial_texture_size : Option UVec2
  motion_vector_scale : Option Vec2
deriving DecidableEq, Repr

/-- The transition every input view is given by `barrier_list`
(local `resource_barrier` helper in the source). -/
def resource_barrier (texture_view : TextureView) : TextureTransition :=
  ⟨texture_view.texture, TextureUses.RESOURCE⟩

/-- `DlssSuperResolutionRenderParameters::barrier_list`
(`src/super_resolution.rs`, lines 292-320): an array of optional transitions
flattened in order. -/
def DlssSuperResolutionRenderParameters.barrier_list
    (self : DlssSuperResolutionRenderParameters) : List TextureTransition :=
  ([some (resource_barrier self.color),
    some (resource_barrier self.depth),
    some (resource_barrier self.motion_vectors),
    (match self.exposure with
      | DlssSuperResolutionExposure.Manual exposure _ _ => some (resource_barrier exposure)
      | DlssSuperResolutionExposure.Automatic => none),
    self.bias.map resource_barrier,
    some ⟨self.dlss_output.texture, TextureUses.STORAGE_READ_WRITE⟩] :
    List (Option TextureTransition)).filterMap id

/-- The non-absent input views of a super-resolution evaluation, in the order
the source lists them (spec side of the barrier claim: required inputs always,
exposure and bias only when present). -/
def DlssSuperResolutionRenderParameters.input_views
    (self : DlssSuperResolutionRenderParameters) : List TextureView :=
  ([some self.color, some self.depth, some self.motion_vectors,
    (match self.exposure with
      | DlssSuperResolutionExposure.Manual exposure _ _ => some exposure
      | DlssSuperResolutionExposure.Automatic => none),
    self.bias] : List (Option TextureView)).filterMap id

/-- `DlssRayReconstructionSpecularGuide` (`src/ray_reconstruction.rs`).  The
camera matrices of the hit-distance variant are modelled as opaque data (they
are only forwarded to the runtime). -/
inductive DlssRayReconstructionSpecularGuide where
  | SpecularMotionVectors (texture_view : TextureView)
  | SpecularHitDistance (texture_view : TextureView)
deriving DecidableEq, Repr

/-- `DlssRayReconstructionRenderParameters` (`src/ray_reconstruction.rs`). -/
structure DlssRayReconstructionRenderParameters where
  diffuse_albedo : TextureView
  specular_albedo : TextureView
  normals : TextureView
  roughness : Option TextureView
  color : TextureView
  depth : TextureView
  motion_vectors : TextureView
  specular_guide : DlssRayReconstructionSpecularGuide
  screen_space_subsurface_scattering_guide : Option TextureView
  bias : Option TextureView
  dlss_output : TextureView
  reset : Bool
  jitter_offset : Vec2
  partial_texture_size : Option UVec2
  motion_vector_scale : Option Vec2
deriving DecidableEq, Repr

/-- `DlssRayReconstructionRenderParameters::barrier_list`
(`src/ray_reconstruction.rs`, lines 427-464). -/
def DlssRayReconstructionRenderParameters.barrier_list
    (self : DlssRayReconstructionRenderParameters) : List TextureTransition :=
  ([some (resource_barrier self.diffuse_albedo),
    some (resource_barrier self.specular_albedo),
    some (resource_barrier self.normals),
    self.roughness.map resource_barrier,
    some (resource_barrier self.color),
    some (resource_barrier self.depth),
    some (resource_barrier self.motion_vectors),
    (match self.specular_guide with
      | DlssRayReconstructionSpecularGuide.SpecularMotionVectors v => some (resource_barrier v)
      | DlssRayReconstructionSpecularGuide.SpecularHitDistance v => some (resource_barrier v)),
    self.screen_space_subsurface_scattering_guide.map resource_barrier,
    self.bias.map resource_barrier,
    some ⟨self.dlss_output.texture, TextureUses.STORAGE_READ_WRITE⟩] :
    List (Option TextureTransition)).filterMap id

/-- The non-absent input views of a ray-reconstruction evaluation, in source
order (spec side of the barrier claim: required inputs and the always-present
specular guide, roughness / subsurface-scattering guide / bias only when
present). -/
def DlssRayReconstructionRenderParameters.input_views
    (self : DlssRayReconstructionRenderParameters) : List TextureView :=
  ([some self.diffuse_albedo, some self.specular_albedo, some self.normals,
    self.roughness, some self.color, some self.depth, some self.motion_vectors,
    (match self.specular_guide with
      | DlssRayReconstructionSpecularGuide.SpecularMotionVectors v => some v
      | DlssRayReconstructionSpecularGuide.SpecularHitDistance v => some v),
    self.screen_space_subsurface_scattering_guide,
    self.bias] : List (Option TextureView)).filterMap id

/-- `NVSDK_NGX_Dimensions`. -/
structure NVSDK_NGX_Dimensions where
  Width : Nat
  Height : Nat
deriving DecidableEq, Repr

/-- The scalar camera-state fields of the evaluation-parameter records
(`NVSDK_NGX_VK_DLSS_Eval_Params` / `NVSDK_NGX_VK_DLSSD_Eval_Params`) that the
render methods populate from the caller's parameters; the resource-pointer
fields are covered by `barrier_list`/`texture_to_ngx_resource` and the
remaining fields are hard-wired constants in the source. -/
structure EvalParamsScalars where
  InJitterOffsetX : ℚ
  InJitterOffsetY : ℚ
  InRenderSubrectDimensions : NVSDK_NGX_Dimensions
  InReset : Nat
  InMVScaleX : ℚ
  InMVScaleY : ℚ
deriving DecidableEq, Repr

/-- The pure parameter assembly done by `DlssSuperResolution::render`
(`src/super_resolution.rs`, lines 110-196): the effective subrect size is the
caller-supplied partial size, else the stored `max_render_resolution`. -/
def DlssSuperResolution.render_eval_params (self : DlssSuperResolution)
    (render_parameters : DlssSuperResolutionRenderParameters) : EvalParamsScalars :=
  let partial_texture_size :=
    render_parameters.partial_texture_size.getD self.max_render_resolution
  { InJitterOffsetX := render_parameters.jitter_offset.x
    InJitterOffsetY := render_parameters.jitter_offset.y
    InRenderSubrectDimensions := ⟨partial_texture_size.x, partial_texture_size.y⟩
    InReset := if render_parameters.reset then 1 else 0
    InMVScaleX := (render_parameters.motion_vector_scale.getD ⟨1, 1⟩).x
    InMVScaleY := (render_parameters.motion_vector_scale.getD ⟨1, 1⟩).y }

/-- The pure parameter assembly done by `DlssRayReconstruction::render`
(`src/ray_reconstruction.rs`, lines 123-295): the effective subrect size is
the caller-supplied partial size, else the stored `render_resolution`. -/
def DlssRayReconstruction.render_eval_params (self : DlssRayReconstruction)
    (render_parameters : DlssRayReconstructionRenderParameters) : EvalParamsScalars :=
  let partial_texture_size :=
    render_parameters.partial_texture_size.getD self.render_resolution
  { InJitterOffsetX := render_parameters.jitter_offset.x
    InJitterOffsetY := render_parameters.jitter_offset.y
    InRenderSubrectDimensions := ⟨partial_texture_size.x, partial_texture_size.y⟩
    InReset := if render_parameters.reset then 1 else 0
    InMVScaleX := (render_parameters.motion_vector_scale.getD ⟨1, 1⟩).x
    InMVScaleY := (render_parameters.motion_vector_scale.getD ⟨1, 1⟩).y }

/-- Modelled from the spec: `DlssPerfQualityMode` lives in
`src/nvsdk_ngx.rs`, which is not part of the provided sources.  The spec
describes an enumerated performance/quality preset including an
exact-resolution native-AA mode (`Dlaa`); the contexts only compare it
against `Dlaa`. -/
inductive DlssPerfQualityMode where
  | Auto
  | Dlaa
  | Quality
  | Balanced
  | Performance
  | UltraPerformance
deriving DecidableEq, Repr

/-- The three render resolutions written by the runtime's optimal-settings
query (`NGX_DLSS_GET_OPTIMAL_SETTINGS` / `NGX_DLSSD_GET_OPTIMAL_SETTINGS`),
modelled as an input describing the query's outcome on success. -/
structure OptimalSettingsQuery where
  optimal_render_resolution : UVec2
  min_render_resolution : UVec2
  max_render_resolution : UVec2
deriving DecidableEq, Repr

/-- The resolution logic of `DlssSuperResolution::new`
(`src/super_resolution.rs`, lines 30-107): query results, then the `Dlaa`
override of all three resolutions.  Returns the constructed context and the
optimal render resolution used for the creation parameters
(`InWidth`/`InHeight`). -/
def DlssSuperResolution.new (upscaled_resolution : UVec2)
    (perf_quality_mode : DlssPerfQualityMode) (query : OptimalSettingsQuery) :
    DlssSuperResolution × UVec2 :=
  let optimal_render_resolution := query.optimal_render_resolution
  let min_render_resolution := query.min_render_resolution
  let max_render_resolution := query.max_render_resolution
  if perf_quality_mode = DlssPerfQualityMode.Dlaa then
    (⟨upscaled_resolution, upscaled_resolution, upscaled_resolution⟩, upscaled_resolution)
  else
    (⟨upscaled_resolution, min_render_resolution, max_render_resolution⟩,
      optimal_render_resolution)

/-- The resolution logic of `DlssRayReconstruction::new`
(`src/ray_reconstruction.rs`, lines 27-120): only the optimal render
resolution is stored (`Dlaa` overrides it); min and max are discarded.
Returns the constructed context; its `render_resolution` is also the value
used for the creation parameters (`InWidth`/`InHeight`). -/
def DlssRayReconstruction.new (upscaled_resolution : UVec2)
    (perf_quality_mode : DlssPerfQualityMode) (query : OptimalSettingsQuery) :
    DlssRayReconstruction :=
  let optimal_render_resolution :=
    if perf_quality_mode = DlssPerfQualityMode.Dlaa then upscaled_resolution
    else query.optimal_render_resolution
  ⟨upscaled_resolution, optimal_render_resolution⟩

/-- Vulkan extension names, modelled as opaque identifiers. -/
abbrev Ext := Nat

/-- `InitializationError` (`src/initialization.rs`).  The wrapped foreign
error payloads are opaque; `DlssError` carries the NGX status code. -/
inductive InitializationError where
  | InstanceError
  | RequestDeviceError
  | DeviceError
  | VulkanError (code : Nat)
  | DlssError (code : Nat)
  | UnsupportedBackend
deriving DecidableEq, Repr

/-- `NVSDK_NGX_Feature` identifiers used during negotiation. -/
inductive NVSDK_NGX_Feature where
  | SuperSampling
  | RayReconstruction
deriving DecidableEq, Repr

/-- `FeatureSupport` (`src/initialization.rs`, lines 175-189). -/
structure FeatureSupport where
  super_resolution_supported : Bool
  ray_reconstruction_supported : Bool
deriving DecidableEq, Repr

/-- `FeatureSupport::default`: both features assumed supported. -/
def FeatureSupport.default : FeatureSupport := ⟨true, true⟩

/-- Outcome description of the NGX runtime's instance-scope
extension-requirement queries
(`NVSDK_NGX_VULKAN_GetFeatureInstanceExtensionRequirements`) plus the set of
extensions enumerable from the Vulkan loader
(`enumerate_instance_extension_properties`).  These are the FFI inputs of
`create_instance`. -/
structure InstanceRuntime where
  super_sampling_requirements : Except InitializationError (List Ext)
  ray_reconstruction_requirements : Except InitializationError (List Ext)
  supported_extensions : List Ext
deriving Repr

/-- `required_instance_extensions` (`src/initialization.rs`, lines 107-137):
queries the runtime for a feature's required instance extensions, and reports
whether they all appear in the loader's enumerable set.  A query error is
returned as an error; an unsatisfied requirement is the normal `false`
result. -/
def required_instance_extensions (runtime : InstanceRuntime)
    (feature_id : NVSDK_NGX_Feature) : Except InitializationError (List Ext × Bool) :=
  match (match feature_id with
    | NVSDK_NGX_Feature.SuperSampling => runtime.super_sampling_requirements
    | NVSDK_NGX_Feature.RayReconstruction => runtime.ray_reconstruction_requirements) with
  | Except.error err => Except.error err
  | Except.ok required_extensions =>
    Except.ok (required_extensions,
      required_extensions.all (fun e => runtime.supported_extensions.contains e))

/-- The created wgpu `Instance`, modelled by the extension set that was passed
to the underlying Vulkan instance creation. -/
structure Instance where
  extensions : List Ext
deriving DecidableEq, Repr

/-- `create_instance` (`src/initialization.rs`, lines 13-52).  The callback
body runs for both features in order: a satisfied feature appends its
extensions, an unsatisfied one clears its support flag, and a query error is
stored in `result` (a later error overwrites an earlier one).  After the
underlying creation (modelled as succeeding), `result?` surfaces any stored
error.  The mutation of `feature_support` through `&mut` persists in either
case, so the final record is returned alongside the creation outcome. -/
def create_instance (runtime : InstanceRuntime) (base_extensions : List Ext)
    (feature_support : FeatureSupport) :
    Except InitializationError Instance × FeatureSupport :=
  let s1 :=
    match required_instance_extensions runtime NVSDK_NGX_Feature.SuperSampling with
    | Except.ok (extensions, true) =>
      (Except.ok (), base_extensions ++ extensions, feature_support)
    | Except.ok (_, false) =>
      (Except.ok (), base_extensions,
        { feature_support with super_resolution_supported := false })
    | Except.error err => (Except.error err, base_extensions, feature_support)
  let s2 :=
    match required_instance_extensions runtime NVSDK_NGX_Feature.RayReconstruction with
    | Except.ok (extensions, true) => (s1.1, s1.2.1 ++ extensions, s1.2.2)
    | Except.ok (_, false) =>
      (s1.1, s1.2.1, { s1.2.2 with ray_reconstruction_supported := false })
    | Except.error err => (Except.error err, s1.2.1, s1.2.2)
  match s2.1 with
  | Except.ok () => (Except.ok ⟨s2.2.1⟩, s2.2.2)
  | Except.error err => (Except.error err, s2.2.2)

/-- Outcome description of the NGX runtime's device-scope
extension-requirement queries
(`NVSDK_NGX_VULKAN_GetFeatureDeviceExtensionRequirements`) plus the physical
device's supported-extension set
(`physical_device_capabilities().supports_extension`).  These are the FFI
inputs of `request_device`. -/
structure DeviceRuntime where
  super_sampling_requirements : Except InitializationError (List Ext)
  ray_reconstruction_requirements : Except InitializationError (List Ext)
  supported_extensions : List Ext
deriving Repr

/-- `required_device_extensions` (`src/initialization.rs`, lines 139-172). -/
def required_device_extensions (runtime : DeviceRuntime)
    (feature_id : NVSDK_NGX_Feature) : Except InitializationError (List Ext × Bool) :=
  match (match feature_id with
    | NVSDK_NGX_Feature.SuperSampling => runtime.super_sampling_requirements
    | NVSDK_NGX_Feature.RayReconstruction => runtime.ray_reconstruction_requirements) with
  | Except.error err => Except.error err
  | Except.ok required_extensions =>
    Except.ok (required_extensions,
      required_extensions.all (fun e => runtime.supported_extensions.contains e))

/-- The created wgpu `Device`/`Queue` pair, modelled by the extension set
passed to the underlying Vulkan device creation. -/
structure Device where
  extensions : List Ext
deriving DecidableEq, Repr

/-- `request_device` (`src/initialization.rs`, lines 59-105).  A non-Vulkan
adapter fails with `UnsupportedBackend` before any negotiation; otherwise the
callback runs for both features exactly as in `create_instance`. -/
def request_device (runtime : DeviceRuntime) (adapter_is_vulkan : Bool)
    (base_extensions : List Ext) (feature_support : FeatureSupport) :
    Except InitializationError Device × FeatureSupport :=
  if adapter_is_vulkan = false then
    (Except.error InitializationError.UnsupportedBackend, feature_support)
  else
    let s1 :=
      match required_device_extensions runtime NVSDK_NGX_Feature.SuperSampling with
      | Except.ok (extensions, true) =>
        (Except.ok (), base_extensions ++ extensions, feature_support)
      | Except.ok (_, false) =>
        (Except.ok (), base_extensions,
          { feature_support with super_resolution_supported := false })
      | Except.error err => (Except.error err, base_extensions, feature_support)
    let s2 :=
      match required_device_extensions runtime NVSDK_NGX_Feature.RayReconstruction with
      | Except.ok (extensions, true) => (s1.1, s1.2.1 ++ extensions, s1.2.2)
      | Except.ok (_, false) =>
        (s1.1, s1.2.1, { s1.2.2 with ray_reconstruction_supported := false })
      | Except.error err => (Except.error err, s1.2.1, s1.2.2)
    match s2.1 with
    | Except.ok () => (Except.ok ⟨s2.2.1⟩, s2.2.2)
    | Except.error err => (Except.error err, s2.2.2)

/-- Observable FFI calls made while dropping a feature context. -/
inductive DropEvent where
  | device_wait_idle
  | release_feature
deriving DecidableEq, Repr

/-- Call trace of `impl Drop for DlssSuperResolution`
(`src/super_resolution.rs`, lines 231-244): `device_wait_idle` is always
called first; its `expect` panics on failure, truncating the trace, so
`NVSDK_NGX_VULKAN_ReleaseFeature` runs only after a successful idle wait. -/
def DlssSuperResolution.drop_trace (wait_idle_ok : Bool) : List DropEvent :=
  let trace := [DropEvent.device_wait_idle]
  if wait_idle_ok then trace ++ [DropEvent.release_feature] else trace

/-- Call trace of `impl Drop for DlssRayReconstruction`
(`src/ray_reconstruction.rs`, lines 325-338), identical in structure. -/
def DlssRayReconstruction.drop_trace (wait_idle_ok : Bool) : List DropEvent :=
  let trace := [DropEvent.device_wait_idle]
  if wait_idle_ok then trace ++ [DropEvent.release_feature] else trace

/-- The spec's jitter formula for the Upscaling-Only context, written from the
spec's words: ratio = output_width / render_width; phase_count =
max(32, floor(8 × ratio²)); index = frame_number mod phase_count; offset =
(Halton(index, 2), Halton(index, 3)) − (0.5, 0.5). -/
def spec_jitter_upscaling_only (output_width render_width frame_number : Nat) : Vec2 :=
  let phase_count :=
    max 32 (Int.toNat ⌊(8 : ℚ) * ((output_width : ℚ) / (render_width : ℚ)) ^ 2⌋)
  let index := frame_number % phase_count
  ⟨halton_sequence index 2 - 1/2, halton_sequence index 3 - 1/2⟩

/-- The spec's jitter formula for the Denoising-Guided context, written from
the spec's words: phase_count = floor(8 × ratio²) with no minimum; a zero
phase count leaves the index undefined (`none`). -/
def spec_jitter_denoising_guided (output_width render_width frame_number : Nat) :
    Option Vec2 :=
  let phase_count :=
    Int.toNat ⌊(8 : ℚ) * ((output_width : ℚ) / (render_width : ℚ)) ^ 2⌋
  if phase_count = 0 then none
  else
    let index := frame_number % phase_count
    some ⟨halton_sequence index 2 - 1/2, halton_sequence index 3 - 1/2⟩

/-!  Theorems. -/

/-- Claim C8: for every texture view, the produced native descriptor's aspect
mask is color if the texture's format has a color aspect and depth otherwise;
its subresource range starts at mip 0 / layer 0 and uses the remaining
sentinels for the mip and layer counts; width, height and format are read
from the owning texture; and the storage flag equals whether the texture's
usage contains the storage-binding flag. -/
theorem c8_resource_descriptor_fields (texture_view : TextureView) :
    (texture_to_ngx_resource texture_view).subresource_range =
      ⟨if texture_view.texture.format.has_color_aspect then ImageAspectFlags.COLOR
          else ImageAspectFlags.DEPTH,
        0, REMAINING_MIP_LEVELS, 0, REMAINING_ARRAY_LAYERS⟩
    ∧ (texture_to_ngx_resource texture_view).image_view = texture_view.raw_handle
    ∧ (texture_to_ngx_resource texture_view).image = texture_view.texture.raw_handle
    ∧ (texture_to_ngx_resource texture_view).width = texture_view.texture.width
    ∧ (texture_to_ngx_resource texture_view).height = texture_view.texture.height
    ∧ (texture_to_ngx_resource texture_view).format = texture_view.texture.format.raw
    ∧ (texture_to_ngx_resource texture_view).readWrite =
        TextureUsages.contains texture_view.texture.usage TextureUsages.STORAGE_BINDING :=
  ⟨rfl, rfl, rfl, rfl, rfl, rfl, rfl⟩

/-- Claim C7: on destruction of either feature context, the device-idle wait
is always the first runtime interaction, and the native release call happens
only in traces where the idle wait succeeded, immediately after it. -/
theorem c7_drop_wait_idle_before_release (wait_idle_ok : Bool) :
    ((DlssSuperResolution.drop_trace wait_idle_ok).head? = some DropEvent.device_wait_idle
      ∧ (DropEvent.release_feature ∈ DlssSuperResolution.drop_trace wait_idle_ok →
          wait_idle_ok = true ∧ DlssSuperResolution.drop_trace wait_idle_ok =
            [DropEvent.device_wait_idle, DropEvent.release_feature]))
    ∧ ((DlssRayReconstruction.drop_trace wait_idle_ok).head? = some DropEvent.device_wait_idle
      ∧ (DropEvent.release_feature ∈ DlssRayReconstruction.drop_trace wait_idle_ok →
          wait_idle_ok = true ∧ DlssRayReconstruction.drop_trace wait_idle_ok =
            [DropEvent.device_wait_idle, DropEvent.release_feature])) := by
  cases wait_idle_ok <;>
    simp [DlssSuperResolution.drop_trace, DlssRayReconstruction.drop_trace]

/-- Witness for C7 at a successful idle wait. -/
theorem c7_drop_wait_idle_before_release_witness :
    true = true ∧ DlssSuperResolution.drop_trace true =
      [DropEvent.device_wait_idle, DropEvent.release_feature] :=
  (c7_drop_wait_idle_before_release true).1.2 (by decide)

/-- Filtering a barrier list of read transitions followed by the single
read-write output transition keeps exactly the output transition. -/
theorem filter_read_write_of_inputs (l : List TextureView) (t : Texture) :
    (l.map resource_barrier ++
        [TextureTransition.mk t TextureUses.STORAGE_READ_WRITE]).filter
        (fun tr => decide (tr.state = TextureUses.STORAGE_READ_WRITE)) =
      [TextureTransition.mk t TextureUses.STORAGE_READ_WRITE] := by
  induction l with
  | nil => simp
  | cons v tl ih => simp [resource_barrier, ih]

/-- The super-resolution barrier list is the read transitions of the present
input views, in order, followed by the read-write output transition. -/
theorem sr_barrier_list_eq (p : DlssSuperResolutionRenderParameters) :
    p.barrier_list = p.input_views.map resource_barrier ++
      [⟨p.dlss_output.texture, TextureUses.STORAGE_READ_WRITE⟩] := by
  cases hex : p.exposure <;> cases hb : p.bias <;>
    simp [DlssSuperResolutionRenderParameters.barrier_list,
      DlssSuperResolutionRenderParameters.input_views, hex, hb]

/-- The ray-reconstruction barrier list is the read transitions of the present
input views, in order, followed by the read-write output transition. -/
theorem rr_barrier_list_eq (q : DlssRayReconstructionRenderParameters) :
    q.barrier_list = q.input_views.map resource_barrier ++
      [⟨q.dlss_output.texture, TextureUses.STORAGE_READ_WRITE⟩] := by
  cases hr : q.roughness <;> cases hg : q.specular_guide <;>
    cases hs : q.screen_space_subsurface_scattering_guide <;> cases hb : q.bias <;>
      simp [DlssRayReconstructionRenderParameters.barrier_list,
        DlssRayReconstructionRenderParameters.input_views, hr, hg, hs, hb]

/-- Claim C6: for every evaluation call, the recorded transition list is one
read transition per supplied non-absent input view (required inputs always,
optional ones only when present, duplicates preserved since the map keeps
list multiplicity), followed by exactly one read-write storage transition,
which is for the `dlss_output` texture — on both context types. -/
theorem c6_barrier_list_transitions (p : DlssSuperResolutionRenderParameters)
    (q : DlssRayReconstructionRenderParameters) :
    (p.barrier_list = p.input_views.map resource_barrier ++
        [⟨p.dlss_output.texture, TextureUses.STORAGE_READ_WRITE⟩]
      ∧ p.barrier_list.filter
          (fun tr => decide (tr.state = TextureUses.STORAGE_READ_WRITE)) =
        [⟨p.dlss_output.texture, TextureUses.STORAGE_READ_WRITE⟩])
    ∧ (q.barrier_list = q.input_views.map resource_barrier ++
        [⟨q.dlss_output.texture, TextureUses.STORAGE_READ_WRITE⟩]
      ∧ q.barrier_list.filter
          (fun tr => decide (tr.state = TextureUses.STORAGE_READ_WRITE)) =
        [⟨q.dlss_output.texture, TextureUses.STORAGE_READ_WRITE⟩]) :=
  ⟨⟨sr_barrier_list_eq p, by rw [sr_barrier_list_eq p, filter_read_write_of_inputs]⟩,
   ⟨rr_barrier_list_eq q, by rw [rr_barrier_list_eq q, filter_read_write_of_inputs]⟩⟩

/-- Claim C5: with the `Dlaa` preset both contexts store the output resolution
as their render resolution (super resolution also overrides min and max, and
both use it for the creation parameters), ignoring the runtime query; with
any other preset the query results are stored unchanged. -/
theorem c5_dlaa_overrides_query (upscaled_resolution : UVec2)
    (perf_quality_mode : DlssPerfQualityMode) (query : OptimalSettingsQuery)
    (h : perf_quality_mode ≠ DlssPerfQualityMode.Dlaa) :
    DlssSuperResolution.new upscaled_resolution DlssPerfQualityMode.Dlaa query =
      (⟨upscaled_resolution, upscaled_resolution, upscaled_resolution⟩, upscaled_resolution)
    ∧ DlssRayReconstruction.new upscaled_resolution DlssPerfQualityMode.Dlaa query =
      ⟨upscaled_resolution, upscaled_resolution⟩
    ∧ DlssSuperResolution.new upscaled_resolution perf_quality_mode query =
      (⟨upscaled_resolution, query.min_render_resolution, query.max_render_resolution⟩,
        query.optimal_render_resolution)
    ∧ DlssRayReconstruction.new upscaled_resolution perf_quality_mode query =
      ⟨upscaled_resolution, query.optimal_render_resolution⟩ := by
  refine ⟨?_, ?_, ?_, ?_⟩ <;>
    simp [DlssSuperResolution.new, DlssRayReconstruction.new, h]

/-- Witness for C5 with the `Auto` preset and a query whose three resolutions
differ from the output resolution. -/
theorem c5_dlaa_overrides_query_witness :
    DlssPerfQualityMode.Auto ≠ DlssPerfQualityMode.Dlaa ∧
      (DlssSuperResolution.new ⟨1920, 1080⟩ DlssPerfQualityMode.Dlaa
          ⟨⟨960, 540⟩, ⟨720, 405⟩, ⟨1280, 720⟩⟩ =
        (⟨⟨1920, 1080⟩, ⟨1920, 1080⟩, ⟨1920, 1080⟩⟩, ⟨1920, 1080⟩)
      ∧ DlssRayReconstruction.new ⟨1920, 1080⟩ DlssPerfQualityMode.Dlaa
          ⟨⟨960, 540⟩, ⟨720, 405⟩, ⟨1280, 720⟩⟩ = ⟨⟨1920, 1080⟩, ⟨1920, 1080⟩⟩
      ∧ DlssSuperResolution.new ⟨1920, 1080⟩ DlssPerfQualityMode.Auto
          ⟨⟨960, 540⟩, ⟨720, 405⟩, ⟨1280, 720⟩⟩ =
        (⟨⟨1920, 1080⟩, ⟨720, 405⟩, ⟨1280, 720⟩⟩, ⟨960, 540⟩)
      ∧ DlssRayReconstruction.new ⟨1920, 1080⟩ DlssPerfQualityMode.Auto
          ⟨⟨960, 540⟩, ⟨720, 405⟩, ⟨1280, 720⟩⟩ = ⟨⟨1920, 1080⟩, ⟨960, 540⟩⟩) :=
  ⟨by decide,
    c5_dlaa_overrides_query ⟨1920, 1080⟩ DlssPerfQualityMode.Auto
      ⟨⟨960, 540⟩, ⟨720, 405⟩, ⟨1280, 720⟩⟩ (by decide)⟩

/-- A distinct concrete texture view for use in concrete evaluations. -/
def test_view (n : Nat) : TextureView :=
  ⟨n, ⟨n + 100, ⟨true, 44⟩, 1920, 1080, TextureUsages.STORAGE_BINDING⟩⟩

/-- Concrete super-resolution render parameters with no partial texture
size. -/
def sr_params_no_partial : DlssSuperResolutionRenderParameters :=
  { color := test_view 1
    depth := test_view 2
    motion_vectors := test_view 3
    exposure := DlssSuperResolutionExposure.Automatic
    bias := none
    dlss_output := test_view 4
    reset := false
    jitter_offset := ⟨0, 0⟩
    partial_texture_size := none
    motion_vector_scale := none }

/-- Concrete ray-reconstruction render parameters with no partial texture
size. -/
def rr_params_no_partial : DlssRayReconstructionRenderParameters :=
  { diffuse_albedo := test_view 1
    specular_albedo := test_view 2
    normals := test_view 3
    roughness := none
    color := test_view 4
    depth := test_view 5
    motion_vectors := test_view 6
    specular_guide := DlssRayReconstructionSpecularGuide.SpecularMotionVectors (test_view 7)
    screen_space_subsurface_scattering_guide := none
    bias := none
    dlss_output := test_view 8
    reset := false
    jitter_offset := ⟨0, 0⟩
    partial_texture_size := none
    motion_vector_scale := none }

/-- Claim C2, counterexample: a super-resolution context created with the
`Auto` preset from a query whose optimal render resolution (960×540) differs
from its maximum (1280×720) defaults the evaluation subrect to the maximum,
not to the optimal resolution the claim states. -/
theorem c2_counterexample :
    ((DlssSuperResolution.new ⟨1920, 1080⟩ DlssPerfQualityMode.Auto
          ⟨⟨960, 540⟩, ⟨720, 405⟩, ⟨1280, 720⟩⟩).1.render_eval_params
        sr_params_no_partial).InRenderSubrectDimensions = ⟨1280, 720⟩
    ∧ (DlssSuperResolution.new ⟨1920, 1080⟩ DlssPerfQualityMode.Auto
        ⟨⟨960, 540⟩, ⟨720, 405⟩, ⟨1280, 720⟩⟩).2 = ⟨960, 540⟩
    ∧ ((DlssSuperResolution.new ⟨1920, 1080⟩ DlssPerfQualityMode.Auto
          ⟨⟨960, 540⟩, ⟨720, 405⟩, ⟨1280, 720⟩⟩).1.render_eval_params
        sr_params_no_partial).InRenderSubrectDimensions ≠
      ⟨(DlssSuperResolution.new ⟨1920, 1080⟩ DlssPerfQualityMode.Auto
          ⟨⟨960, 540⟩, ⟨720, 405⟩, ⟨1280, 720⟩⟩).2.x,
       (DlssSuperResolution.new ⟨1920, 1080⟩ DlssPerfQualityMode.Auto
          ⟨⟨960, 540⟩, ⟨720, 405⟩, ⟨1280, 720⟩⟩).2.y⟩ := by
  refine ⟨rfl, rfl, ?_⟩
  intro h
  simp [DlssSuperResolution.new, DlssSuperResolution.render_eval_params,
    sr_params_no_partial, NVSDK_NGX_Dimensions.mk.injEq] at h

/-- Claim C2 (amended): when no partial texture size is supplied, the subrect
dimensions placed into the evaluation-parameter record equal the stored
maximum render resolution for `DlssSuperResolution` and the stored (optimal)
render resolution for `DlssRayReconstruction`; a supplied partial texture
size is used instead on both. -/
theorem c2_render_subrect_default (sr : DlssSuperResolution)
    (rr : DlssRayReconstruction) (p : DlssSuperResolutionRenderParameters)
    (q : DlssRayReconstructionRenderParameters) (v w : UVec2) :
    (p.partial_texture_size = none →
      (sr.render_eval_params p).InRenderSubrectDimensions =
        ⟨sr.max_render_resolution.x, sr.max_render_resolution.y⟩)
    ∧ (p.partial_texture_size = some v →
        (sr.render_eval_params p).InRenderSubrectDimensions = ⟨v.x, v.y⟩)
    ∧ (q.partial_texture_size = none →
        (rr.render_eval_params q).InRenderSubrectDimensions =
          ⟨rr.render_resolution.x, rr.render_resolution.y⟩)
    ∧ (q.partial_texture_size = some w →
        (rr.render_eval_params q).InRenderSubrectDimensions = ⟨w.x, w.y⟩) := by
  refine ⟨fun h => ?_, fun h => ?_, fun h => ?_, fun h => ?_⟩ <;>
    simp [DlssSuperResolution.render_eval_params,
      DlssRayReconstruction.render_eval_params, h]

/-- Witness for C2 (amended): a context with maximum render resolution
1280×720 and a parameter record without a partial size, and a
ray-reconstruction call with a supplied partial size 640×360. -/
theorem c2_render_subrect_default_witness :
    ((DlssSuperResolution.mk ⟨1920, 1080⟩ ⟨720, 405⟩ ⟨1280, 720⟩).render_eval_params
        sr_params_no_partial).InRenderSubrectDimensions = ⟨1280, 720⟩
    ∧ ((DlssRayReconstruction.mk ⟨1920, 1080⟩ ⟨960, 540⟩).render_eval_params
        { rr_params_no_partial with
          partial_texture_size := some ⟨640, 360⟩ }).InRenderSubrectDimensions =
      ⟨640, 360⟩ :=
  ⟨(c2_render_subrect_default (DlssSuperResolution.mk ⟨1920, 1080⟩ ⟨720, 405⟩ ⟨1280, 720⟩)
      (DlssRayReconstruction.mk ⟨1920, 1080⟩ ⟨960, 540⟩) sr_params_no_partial
      rr_params_no_partial ⟨0, 0⟩ ⟨0, 0⟩).1 rfl,
   (c2_render_subrect_default (DlssSuperResolution.mk ⟨1920, 1080⟩ ⟨720, 405⟩ ⟨1280, 720⟩)
      (DlssRayReconstruction.mk ⟨1920, 1080⟩ ⟨960, 540⟩) sr_params_no_partial
      { rr_params_no_partial with partial_texture_size := some ⟨640, 360⟩ }
      ⟨0, 0⟩ ⟨640, 360⟩).2.2.2 rfl⟩

/-- Claim C3: whenever both extension-requirement queries succeed, instance
and device creation succeed; a feature whose required extensions are reported
not all present gets its support flag cleared and contributes no extensions,
while a satisfied feature's extensions are appended and its flag is left
unchanged — each feature is handled independently of the other's outcome. -/
theorem c3_unsupported_feature_is_soft (rtI : InstanceRuntime) (rtD : DeviceRuntime)
    (base : List Ext) (fs : FeatureSupport) (eA eB dA dB : List Ext) (sA sB tA tB : Bool)
    (hA : required_instance_extensions rtI NVSDK_NGX_Feature.SuperSampling =
      Except.ok (eA, sA))
    (hB : required_instance_extensions rtI NVSDK_NGX_Feature.RayReconstruction =
      Except.ok (eB, sB))
    (hC : required_device_extensions rtD NVSDK_NGX_Feature.SuperSampling =
      Except.ok (dA, tA))
    (hD : required_device_extensions rtD NVSDK_NGX_Feature.RayReconstruction =
      Except.ok (dB, tB)) :
    create_instance rtI base fs =
      (Except.ok ⟨(base ++ (if sA then eA else [])) ++ (if sB then eB else [])⟩,
        ⟨if sA then fs.super_resolution_supported else false,
         if sB then fs.ray_reconstruction_supported else false⟩)
    ∧ request_device rtD true base fs =
      (Except.ok ⟨(base ++ (if tA then dA else [])) ++ (if tB then dB else [])⟩,
        ⟨if tA then fs.super_resolution_supported else false,
         if tB then fs.ray_reconstruction_supported else false⟩) := by
  constructor
  · cases sA <;> cases sB <;> simp [create_instance, hA, hB]
  · cases tA <;> cases tB <;> simp [request_device, hC, hD]

/-- Concrete runtime for the instance-negotiation witness: feature A
(super sampling) needs extension 101 which is enumerable, feature B
(ray reconstruction) needs extension 102 which is not. -/
def rt_instance_ab : InstanceRuntime := ⟨Except.ok [101], Except.ok [102], [101]⟩

/-- Concrete runtime for the device-negotiation witness, mirroring
`rt_instance_ab`. -/
def rt_device_ab : DeviceRuntime := ⟨Except.ok [101], Except.ok [102], [101]⟩

/-- Witness for C3: with feature A satisfied and feature B's extension absent,
creation succeeds, only A's extensions are injected, and the support record
ends with A true and B false. -/
theorem c3_unsupported_feature_is_soft_witness :
    create_instance rt_instance_ab [] FeatureSupport.default =
      (Except.ok ⟨[101]⟩, ⟨true, false⟩)
    ∧ request_device rt_device_ab true [] FeatureSupport.default =
      (Except.ok ⟨[101]⟩, ⟨true, false⟩) :=
  c3_unsupported_feature_is_soft rt_instance_ab rt_device_ab [] FeatureSupport.default
    [101] [102] [101] [102] true false true false rfl rfl rfl rfl

/-- Claim C4: if an extension-requirement query itself errors during
negotiation, the overall instance (respectively device) creation returns a
query error and no instance (respectively device) is returned; when both
queries succeed — including with a negative support result — creation
succeeds, so query failure is distinguished from the not-satisfied result. -/
theorem c4_query_failure_aborts_creation (rtI : InstanceRuntime) (rtD : DeviceRuntime)
    (base : List Ext) (fs : FeatureSupport) (e : InitializationError)
    (lA lB : List Ext) (sA sB : Bool) :
    ((required_instance_extensions rtI NVSDK_NGX_Feature.SuperSampling = Except.error e ∨
        required_instance_extensions rtI NVSDK_NGX_Feature.RayReconstruction =
          Except.error e) →
      ∃ e', (create_instance rtI base fs).1 = Except.error e' ∧
        (required_instance_extensions rtI NVSDK_NGX_Feature.SuperSampling =
            Except.error e' ∨
         required_instance_extensions rtI NVSDK_NGX_Feature.RayReconstruction =
            Except.error e'))
    ∧ ((required_instance_extensions rtI NVSDK_NGX_Feature.SuperSampling =
          Except.ok (lA, sA) ∧
        required_instance_extensions rtI NVSDK_NGX_Feature.RayReconstruction =
          Except.ok (lB, sB)) →
      ∃ inst, (create_instance rtI base fs).1 = Except.ok inst)
    ∧ ((required_device_extensions rtD NVSDK_NGX_Feature.SuperSampling = Except.error e ∨
        required_device_extensions rtD NVSDK_NGX_Feature.RayReconstruction =
          Except.error e) →
      ∃ e', (request_device rtD true base fs).1 = Except.error e' ∧
        (required_device_extensions rtD NVSDK_NGX_Feature.SuperSampling =
            Except.error e' ∨
         required_device_extensions rtD NVSDK_NGX_Feature.RayReconstruction =
            Except.error e'))
    ∧ ((required_device_extensions rtD NVSDK_NGX_Feature.SuperSampling =
          Except.ok (lA, sA) ∧
        required_device_extensions rtD NVSDK_NGX_Feature.RayReconstruction =
          Except.ok (lB, sB)) →
      ∃ dev, (request_device rtD true base fs).1 = Except.ok dev) := by
  refine ⟨fun h => ?_, fun h => ?_, fun h => ?_, fun h => ?_⟩
  · cases hB : required_instance_extensions rtI NVSDK_NGX_Feature.RayReconstruction with
    | error e2 =>
      refine ⟨e2, ?_, Or.inr rfl⟩
      cases hA : required_instance_extensions rtI NVSDK_NGX_Feature.SuperSampling with
      | error e1 => simp [create_instance, hA, hB]
      | ok v1 =>
        rcases v1 with ⟨l1, b1⟩
        cases b1 <;> simp [create_instance, hA, hB]
    | ok v2 =>
      rcases v2 with ⟨l2, b2⟩
      cases hA : required_instance_extensions rtI NVSDK_NGX_Feature.SuperSampling with
      | error e1 =>
        refine ⟨e1, ?_, Or.inl rfl⟩
        cases b2 <;> simp [create_instance, hA, hB]
      | ok v1 =>
        rcases h with h | h
        · rw [hA] at h; exact absurd h (by simp)
        · rw [hB] at h; exact absurd h (by simp)
  · obtain ⟨hA, hB⟩ := h
    cases sA <;> cases sB
    · exact ⟨⟨base⟩, by simp [create_instance, hA, hB]⟩
    · exact ⟨⟨base ++ lB⟩, by simp [create_instance, hA, hB]⟩
    · exact ⟨⟨base ++ lA⟩, by simp [create_instance, hA, hB]⟩
    · exact ⟨⟨base ++ (lA ++ lB)⟩, by simp [create_instance, hA, hB]⟩
  · cases hB : required_device_extensions rtD NVSDK_NGX_Feature.RayReconstruction with
    | error e2 =>
      refine ⟨e2, ?_, Or.inr rfl⟩
      cases hA : required_device_extensions rtD NVSDK_NGX_Feature.SuperSampling with
      | error e1 => simp [request_device, hA, hB]
      | ok v1 =>
        rcases v1 with ⟨l1, b1⟩
        cases b1 <;> simp [request_device, hA, hB]
    | ok v2 =>
      rcases v2 with ⟨l2, b2⟩
      cases hA : required_device_extensions rtD NVSDK_NGX_Feature.SuperSampling with
      | error e1 =>
        refine ⟨e1, ?_, Or.inl rfl⟩
        cases b2 <;> simp [request_device, hA, hB]
      | ok v1 =>
        rcases h with h | h
        · rw [hA] at h; exact absurd h (by simp)
        · rw [hB] at h; exact absurd h (by simp)
  · obtain ⟨hA, hB⟩ := h
    cases sA <;> cases sB
    · exact ⟨⟨base⟩, by simp [request_device, hA, hB]⟩
    · exact ⟨⟨base ++ lB⟩, by simp [request_device, hA, hB]⟩
    · exact ⟨⟨base ++ lA⟩, by simp [request_device, hA, hB]⟩
    · exact ⟨⟨base ++ (lA ++ lB)⟩, by simp [request_device, hA, hB]⟩

/-- Concrete runtime for the query-failure witness: the super-sampling
requirement query fails with an NGX error. -/
def rt_instance_err : InstanceRuntime :=
  ⟨Except.error (InitializationError.DlssError 7), Except.ok [102], [101, 102]⟩

/-- Concrete device runtime for the query-failure witness. -/
def rt_device_err : DeviceRuntime :=
  ⟨Except.error (InitializationError.DlssError 7), Except.ok [102], [101, 102]⟩

/-- Witness for C4: with a failing super-sampling query, instance creation
returns an error that is one of the feature query errors. -/
theorem c4_query_failure_aborts_creation_witness :
    (required_instance_extensions rt_instance_err NVSDK_NGX_Feature.SuperSampling =
        Except.error (InitializationError.DlssError 7) ∨
      required_instance_extensions rt_instance_err NVSDK_NGX_Feature.RayReconstruction =
        Except.error (InitializationError.DlssError 7))
    ∧ ∃ e', (create_instance rt_instance_err [] FeatureSupport.default).1 =
        Except.error e' ∧
      (required_instance_extensions rt_instance_err NVSDK_NGX_Feature.SuperSampling =
          Except.error e' ∨
       required_instance_extensions rt_instance_err NVSDK_NGX_Feature.RayReconstruction =
          Except.error e') :=
  ⟨Or.inl rfl,
    (c4_query_failure_aborts_creation rt_instance_err rt_device_err []
      FeatureSupport.default (InitializationError.DlssError 7) [] [] true true).1
      (Or.inl rfl)⟩

/-- Claim C9: `suggested_jitter` is periodic in the frame number with period
equal to the mode's phase count, on both context types (for super resolution
this requires the phase count to be positive, since a zero phase count
panics). -/
theorem c9_suggested_jitter_periodic (sr : DlssSuperResolution)
    (rr : DlssRayReconstruction) (f : Nat) (r : UVec2)
    (h : 0 < sr.phase_count r) :
    sr.suggested_jitter (f + sr.phase_count r) r = sr.suggested_jitter f r
    ∧ rr.suggested_jitter (f + rr.phase_count r) r = rr.suggested_jitter f r := by
  constructor
  · simp only [DlssSuperResolution.suggested_jitter, Nat.add_mod_right]
  · simp only [DlssRayReconstruction.suggested_jitter, Nat.add_mod_right]

/-- Witness for C9 at a 100×100 output, 100×100 render resolution (phase
count 8 for super resolution) and frame 5. -/
theorem c9_suggested_jitter_periodic_witness :
    0 < (DlssSuperResolution.mk ⟨100, 100⟩ ⟨100, 100⟩ ⟨100, 100⟩).phase_count ⟨100, 100⟩
    ∧ ((DlssSuperResolution.mk ⟨100, 100⟩ ⟨100, 100⟩ ⟨100, 100⟩).suggested_jitter
          (5 + (DlssSuperResolution.mk ⟨100, 100⟩ ⟨100, 100⟩ ⟨100, 100⟩).phase_count
            ⟨100, 100⟩) ⟨100, 100⟩ =
        (DlssSuperResolution.mk ⟨100, 100⟩ ⟨100, 100⟩ ⟨100, 100⟩).suggested_jitter 5
          ⟨100, 100⟩
      ∧ (DlssRayReconstruction.mk ⟨100, 100⟩ ⟨100, 100⟩).suggested_jitter
          (5 + (DlssRayReconstruction.mk ⟨100, 100⟩ ⟨100, 100⟩).phase_count ⟨100, 100⟩)
          ⟨100, 100⟩ =
        (DlssRayReconstruction.mk ⟨100, 100⟩ ⟨100, 100⟩).suggested_jitter 5 ⟨100, 100⟩) :=
  ⟨by simp [DlssSuperResolution.phase_count, u32_saturate, u32_max],
    c9_suggested_jitter_periodic (DlssSuperResolution.mk ⟨100, 100⟩ ⟨100, 100⟩ ⟨100, 100⟩)
      (DlssRayReconstruction.mk ⟨100, 100⟩ ⟨100, 100⟩) 5 ⟨100, 100⟩
      (by simp [DlssSuperResolution.phase_count, u32_saturate, u32_max])⟩

/-- The super-resolution jitter call panics (returns `none`) exactly when its
phase count is zero. -/
theorem sr_suggested_jitter_none_iff (sr : DlssSuperResolution) (f : Nat) (r : UVec2) :
    sr.suggested_jitter f r = none ↔ sr.phase_count r = 0 := by
  by_cases hc : sr.phase_count r = 0 <;>
    simp [DlssSuperResolution.suggested_jitter, hc]

/-- Claim C10: with a positive render width, the super-resolution jitter call
panics by remainder-by-zero exactly when 8 × (upscaled_width / render_width)²
truncates to zero, i.e. when 8 × upscaled_width² < render_width²; the
ray-reconstruction phase count is clamped to at least 32, so its remainder is
always defined. -/
theorem c10_sr_jitter_panics_on_zero_phase (sr : DlssSuperResolution)
    (rr : DlssRayReconstruction) (f : Nat) (r : UVec2) (h : 0 < r.x) :
    (sr.suggested_jitter f r = none ↔
      8 * sr.upscaled_resolution.x ^ 2 < r.x ^ 2)
    ∧ 32 ≤ rr.phase_count r := by
  constructor
  · rw [sr_suggested_jitter_none_iff]
    rw [DlssSuperResolution.phase_count, if_neg h.ne']
    simp only [u32_saturate, Nat.min_eq_zero_iff, u32_max]
    have hx : (0 : ℚ) < (r.x : ℚ) := by exact_mod_cast h
    have hq : (8 : ℚ) * ((sr.upscaled_resolution.x : ℚ) / (r.x : ℚ)) *
        ((sr.upscaled_resolution.x : ℚ) / (r.x : ℚ)) =
        8 * (sr.upscaled_resolution.x : ℚ) ^ 2 / (r.x : ℚ) ^ 2 := by
      field_simp
      ring
    rw [hq]
    have hpos : (0 : ℚ) < (r.x : ℚ) ^ 2 := by positivity
    constructor
    · intro hf
      have h0 : Int.toNat ⌊8 * (sr.upscaled_resolution.x : ℚ) ^ 2 / (r.x : ℚ) ^ 2⌋ = 0 := by
        omega
      have h2 : ⌊8 * (sr.upscaled_resolution.x : ℚ) ^ 2 / (r.x : ℚ) ^ 2⌋ < 1 := by
        omega
      have h1 : 8 * (sr.upscaled_resolution.x : ℚ) ^ 2 / (r.x : ℚ) ^ 2 < 1 := by
        have := Int.floor_lt.mp h2
        exact_mod_cast this
      have h3 := (div_lt_one hpos).mp h1
      exact_mod_cast h3
    · intro hlt
      have h3 : 8 * (sr.upscaled_resolution.x : ℚ) ^ 2 < (r.x : ℚ) ^ 2 := by
        exact_mod_cast hlt
      have h1 := (div_lt_one hpos).mpr h3
      have h2 : ⌊8 * (sr.upscaled_resolution.x : ℚ) ^ 2 / (r.x : ℚ) ^ 2⌋ < 1 :=
        Int.floor_lt.mpr (by exact_mod_cast h1)
      omega
  · simp only [DlssRayReconstruction.phase_count]
    exact Nat.le_max_right _ _

/-- Witness for C10: a 1×1 output at a 3×3 render resolution, where
8 × 1² < 3² and the super-resolution phase count is zero. -/
theorem c10_sr_jitter_panics_on_zero_phase_witness :
    0 < (3 : Nat)
    ∧ (((DlssSuperResolution.mk ⟨1, 1⟩ ⟨1, 1⟩ ⟨1, 1⟩).suggested_jitter 0 ⟨3, 3⟩ = none ↔
        8 * (1 : Nat) ^ 2 < (3 : Nat) ^ 2)
      ∧ 32 ≤ (DlssRayReconstruction.mk ⟨1, 1⟩ ⟨1, 1⟩).phase_count ⟨3, 3⟩) :=
  ⟨by decide,
    c10_sr_jitter_panics_on_zero_phase (DlssSuperResolution.mk ⟨1, 1⟩ ⟨1, 1⟩ ⟨1, 1⟩)
      (DlssRayReconstruction.mk ⟨1, 1⟩ ⟨1, 1⟩) 0 ⟨3, 3⟩ (by decide)⟩

/-- Claim C1, counterexample: at a 100×100 output and 100×100 render
resolution, `DlssSuperResolution::suggested_jitter` at frame 8 wraps with its
unclamped phase count 8 (index 0), so it differs from the spec's
Upscaling-Only formula, whose phase count max(32, 8) = 32 gives index 8 —
the minimum-of-32 clamp is in the ray-reconstruction context, not in the
super-resolution one. -/
theorem c1_counterexample :
    (DlssSuperResolution.mk ⟨100, 100⟩ ⟨100, 100⟩ ⟨100, 100⟩).suggested_jitter 8
        ⟨100, 100⟩ ≠
      some (spec_jitter_upscaling_only 100 100 8) := by
  have hcode : (DlssSuperResolution.mk ⟨100, 100⟩ ⟨100, 100⟩ ⟨100, 100⟩).suggested_jitter 8
      ⟨100, 100⟩ = some ⟨halton_sequence 0 2 - 1/2, halton_sequence 0 3 - 1/2⟩ := by
    simp [DlssSuperResolution.suggested_jitter, DlssSuperResolution.phase_count,
      u32_saturate, u32_max]
  have hspec : spec_jitter_upscaling_only 100 100 8 =
      ⟨halton_sequence 8 2 - 1/2, halton_sequence 8 3 - 1/2⟩ := by
    simp [spec_jitter_upscaling_only]
  have h0 : halton_sequence 0 2 = 0 := by
    rw [halton_sequence, show halton_frac 0 0 2 = (0, 1) from rfl]
    norm_num
  have h8 : halton_sequence 8 2 = 1/16 := by
    rw [halton_sequence, show halton_frac 8 8 2 = (1, 16) from by decide]
    norm_num
  rw [hcode, hspec]
  simp only [Option.some.injEq, Vec2.mk.injEq, h0, h8, not_and]
  intro hx
  norm_num at hx

/-- Claim C1 (amended): the two phase-count formulas are swapped relative to
the spec — `DlssSuperResolution::suggested_jitter` uses
phase_count = floor(8 × ratio²) with no minimum (the formula the spec assigns
to the Denoising-Guided mode) and `DlssRayReconstruction::suggested_jitter`
uses phase_count = max(32, floor(8 × ratio²)) (the formula the spec assigns
to Upscaling-Only), for every frame number and render resolution with
positive render width and an upscaled width within the non-saturating range
of the `u32` cast. -/
theorem c1_phase_count_formula_by_mode (sr : DlssSuperResolution)
    (rr : DlssRayReconstruction) (f : Nat) (r : UVec2) (h : 0 < r.x)
    (hsr : sr.upscaled_resolution.x ≤ 23170) (hrr : rr.upscaled_resolution.x ≤ 23170) :
    sr.suggested_jitter f r =
      spec_jitter_denoising_guided sr.upscaled_resolution.x r.x f
    ∧ rr.suggested_jitter f r =
      spec_jitter_upscaling_only rr.upscaled_resolution.x r.x f := by
  have hone : (1 : ℚ) ≤ (r.x : ℚ) := by exact_mod_cast h
  have collapse : ∀ upscaled_width : Nat, upscaled_width ≤ 23170 →
      u32_saturate (8 * ((upscaled_width : ℚ) / (r.x : ℚ)) *
        ((upscaled_width : ℚ) / (r.x : ℚ))) =
      Int.toNat ⌊(8 : ℚ) * ((upscaled_width : ℚ) / (r.x : ℚ)) ^ 2⌋ := by
    intro uw huw
    have hρ0 : (0 : ℚ) ≤ (uw : ℚ) / (r.x : ℚ) := by positivity
    have hρ : (uw : ℚ) / (r.x : ℚ) ≤ (uw : ℚ) := div_le_self (by positivity) hone
    have huw' : (uw : ℚ) ≤ 23170 := by exact_mod_cast huw
    have hρb : (uw : ℚ) / (r.x : ℚ) ≤ 23170 := le_trans hρ huw'
    have hmul : ((uw : ℚ) / (r.x : ℚ)) * ((uw : ℚ) / (r.x : ℚ)) ≤ 23170 * 23170 :=
      mul_le_mul hρb hρb hρ0 (by norm_num)
    have hq : (8 : ℚ) * ((uw : ℚ) / (r.x : ℚ)) ^ 2 ≤ 4294791200 := by
      nlinarith
    have hfl : ⌊(8 : ℚ) * ((uw : ℚ) / (r.x : ℚ)) ^ 2⌋ ≤ (4294791200 : ℤ) := by
      calc ⌊(8 : ℚ) * ((uw : ℚ) / (r.x : ℚ)) ^ 2⌋
          ≤ ⌊(4294791200 : ℚ)⌋ := Int.floor_mono hq
        _ = 4294791200 := by norm_num
    have harg : (8 : ℚ) * ((uw : ℚ) / (r.x : ℚ)) * ((uw : ℚ) / (r.x : ℚ)) =
        8 * ((uw : ℚ) / (r.x : ℚ)) ^ 2 := by ring
    rw [u32_saturate, harg]
    simp only [u32_max]
    omega
  constructor
  · have hphase : sr.phase_count r =
        Int.toNat ⌊(8 : ℚ) * ((sr.upscaled_resolution.x : ℚ) / (r.x : ℚ)) ^ 2⌋ := by
      rw [DlssSuperResolution.phase_count, if_neg h.ne']
      exact collapse sr.upscaled_resolution.x hsr
    simp only [DlssSuperResolution.suggested_jitter, spec_jitter_denoising_guided, hphase]
  · have hphase : rr.phase_count r =
        max 32 (Int.toNat ⌊(8 : ℚ) * ((rr.upscaled_resolution.x : ℚ) / (r.x : ℚ)) ^ 2⌋) := by
      simp only [DlssRayReconstruction.phase_count, if_neg h.ne']
      rw [collapse rr.upscaled_resolution.x hrr, Nat.max_comm]
    simp only [DlssRayReconstruction.suggested_jitter, spec_jitter_upscaling_only, hphase]

/-- Witness for C1 (amended) at a 1920×1080 output, 1280×720 render
resolution and frame 3. -/
theorem c1_phase_count_formula_by_mode_witness :
    0 < (1280 : Nat) ∧ (1920 : Nat) ≤ 23170
    ∧ ((DlssSuperResolution.mk ⟨1920, 1080⟩ ⟨1280, 720⟩ ⟨1280, 720⟩).suggested_jitter 3
          ⟨1280, 720⟩ = spec_jitter_denoising_guided 1920 1280 3
      ∧ (DlssRayReconstruction.mk ⟨1920, 1080⟩ ⟨1280, 720⟩).suggested_jitter 3
          ⟨1280, 720⟩ = spec_jitter_upscaling_only 1920 1280 3) :=
  ⟨by decide, by decide,
    c1_phase_count_formula_by_mode (DlssSuperResolution.mk ⟨1920, 1080⟩ ⟨1280, 720⟩ ⟨1280, 720⟩)
      (DlssRayReconstruction.mk ⟨1920, 1080⟩ ⟨1280, 720⟩) 3 ⟨1280, 720⟩
      (by decide) (by decide) (by decide)⟩

end DlssWgpu
